import Mathlib

/-!
Verification development for `src/server/routes/pages/AssetDesignerPage.tsx`.

The file shallowly embeds the designer page's state machine and its helpers:
the JavaScript value domain used by the untyped `variables` mapping, the
lodash-style nested path write (`set`) and read (`get`), the reducer
`assetDesignerReducer`, the query-string merge `updateQuery`, the registry
lookup `getSelection` with its render-site placeholder fallback, the
initial-state seeding passed to `React.useReducer`, and the theme resolution
`themes.find(...) || themes[0]`.

Modelling conventions:
- JavaScript values are modelled by `JsValue` (undefined, null, booleans,
  numbers restricted to integers, strings, and plain objects as ordered
  key/value field lists `JsFields`).  Arrays, functions-as-values and exotic
  property semantics (e.g. `"ab".length`) are not needed by the code under
  study and are not modelled.
- The browser side effect of `updateQuery` (history.push) is modelled by
  returning the merged query mapping; the reducer records the exact
  `(field, value)` pair it passes to `updateQuery`.
- Thrown exceptions are modelled with `Except.error` carrying the message.
-/

namespace AssetDesigner

mutual

/-- The JavaScript value domain for the untyped parts of the page (the
variables mapping of type `\x7b [key: string]: any \x7d`, action payloads,
query values). -/
inductive JsValue where
  | undef
  | null
  | bool (b : Bool)
  | num (n : Int)
  | str (s : String)
  | obj (fields : JsFields)

/-- Ordered field list of a plain JavaScript object. -/
inductive JsFields where
  | nil
  | cons (key : String) (value : JsValue) (rest : JsFields)

end

deriving instance DecidableEq for JsValue, JsFields
deriving instance Repr for JsValue, JsFields

/-- Property read on an object field list: first binding for the key wins
(JavaScript object keys are unique, so first = only). -/
def JsFields.lookup (k : String) : JsFields → Option JsValue
  | JsFields.nil => none
  | JsFields.cons k' v rest => if k' = k then some v else JsFields.lookup k rest

/-- Property write on an object field list: `obj[k] = v`.  Overwrites the
binding in place when the key is present, appends otherwise. -/
def JsFields.set (k : String) (v : JsValue) : JsFields → JsFields
  | JsFields.nil => JsFields.cons k v JsFields.nil
  | JsFields.cons k' v' rest =>
    if k' = k then JsFields.cons k' v rest
    else JsFields.cons k' v' (JsFields.set k v rest)

/-- Single-key property access on an arbitrary value, as lodash `get(o, k)`:
reads the field of an object, and yields `undefined` on any non-object. -/
def jsGet (m : JsValue) (k : String) : JsValue :=
  match m with
  | JsValue.obj fs => (fs.lookup k).getD JsValue.undef
  | _ => JsValue.undef

/-- JavaScript ToPropertyKey string coercion used by `templates[selectionId]`
when the index is not already a string. -/
def propKey : JsValue → String
  | JsValue.str s => s
  | JsValue.num n => toString n
  | JsValue.bool b => cond b "true" "false"
  | JsValue.null => "null"
  | JsValue.undef => "undefined"
  | JsValue.obj _ => "[object Object]"

/-- Split a character list at every dot.  Always yields a non-empty list of
path segments (an empty input yields the single empty segment). -/
def splitDots : List Char → List String
  | [] => [""]
  | c :: rest =>
    if c = '.' then "" :: splitDots rest
    else
      match splitDots rest with
      | [] => [String.mk [c]]
      | s :: tail => String.mk (c :: s.data) :: tail

/-- Path conversion of lodash `set`/`get` for plain dotted field names such
as `"a.b"` (the bracket/quote syntax of lodash paths is never used by the
page and is not modelled). -/
def toPath (field : String) : List String := splitDots field.data

/-- The object to descend into while walking a `set` path: the existing
field value when it is an object, otherwise a fresh empty object (lodash
replaces missing or non-object intermediates). -/
def childFields (fs : JsFields) (k : String) : JsFields :=
  match fs.lookup k with
  | some (JsValue.obj g) => g
  | _ => JsFields.nil

/-- Lodash `set(o, path, v)` restricted to object field lists: walks the
path, descending into existing object values and replacing any missing or
non-object intermediate with a fresh empty object, then assigns the value at
the final key. -/
def setPathF : List String → JsValue → JsFields → JsFields
  | [], _, fs => fs
  | [k], v, fs => fs.set k v
  | k :: k2 :: rest, v, fs =>
    fs.set k (JsValue.obj (setPathF (k2 :: rest) v (childFields fs k)))

/-- Lodash `get(o, path)` on an object field list: walks the path and yields
`undefined` as soon as a key is missing or a non-object is entered. -/
def getPathF : List String → JsFields → JsValue
  | [], _ => JsValue.undef
  | [k], fs => (fs.lookup k).getD JsValue.undef
  | k :: k2 :: rest, fs =>
    match fs.lookup k with
    | some (JsValue.obj g) => getPathF (k2 :: rest) g
    | _ => JsValue.undef

/-- Two paths diverge: at the first position where they differ neither has
ended, i.e. neither path is an initial segment of the other. -/
def pathDisjoint : List String → List String → Bool
  | [], _ => false
  | _ :: _, [] => false
  | a :: p, b :: q => if a = b then pathDisjoint p q else true

/-- Escape of one character inside a JSON string literal. -/
def jsonEscapeChar (c : Char) : String :=
  if c = '"' then "\\\""
  else if c = '\\' then "\\\\"
  else if c = '\n' then "\\n"
  else String.mk [c]

/-- JSON string literal for a key or string value. -/
def jsonQuote (s : String) : String :=
  "\"" ++ String.join (s.data.map jsonEscapeChar) ++ "\""

mutual

/-- Model of `JSON.stringify` for the value domain, as used on the
variables object: object members with `undefined` values are dropped. -/
def jsonStringifyV : JsValue → String
  | JsValue.undef => "null"
  | JsValue.null => "null"
  | JsValue.bool b => cond b "true" "false"
  | JsValue.num n => toString n
  | JsValue.str s => jsonQuote s
  | JsValue.obj fs => "\x7b" ++ String.intercalate "," (jsonMembers fs) ++ "\x7d"

/-- The serialized `key:value` members of an object, dropping the members
whose value is `undefined`, as `JSON.stringify` does. -/
def jsonMembers : JsFields → List String
  | JsFields.nil => []
  | JsFields.cons k v rest =>
    match v with
    | JsValue.undef => jsonMembers rest
    | _ => (jsonQuote k ++ ":" ++ jsonStringifyV v) :: jsonMembers rest

end

/-- Lodash `fromPairs`: build an object from a pair list; a later pair for
the same key overwrites the earlier one. -/
def fromPairsF (pairs : List (String × JsValue)) : JsFields :=
  pairs.foldl (fun acc p => acc.set p.1 p.2) JsFields.nil

/-- Theme entity from `../../schema/Theme` (that module is outside the file
under study).  Modelled from the spec: an opaque external entity with at
least `id` and `colors.background`. -/
structure Theme where
  id : String
  colorsBackground : String
deriving DecidableEq, Repr

/-- One entry of a selection's `variables` descriptor list, with the fields
the page reads: `id` and the `validation` object whose `default` member
seeds the initial value. -/
structure VariableDescriptor where
  id : String
  validation : JsValue
deriving DecidableEq, Repr

/-- Result of invoking a renderable: the produced UI text, or a thrown
exception's message. -/
inductive RenderResult where
  | ok (ui : String)
  | thrown (msg : String)
deriving DecidableEq, Repr

/-- A registry entry (template or component): it may expose a `variables`
descriptor list (`none` models the property being absent), has a `filename`
used by the export button, and is renderable from a props value. -/
structure Renderable where
  «variables» : Option (List VariableDescriptor)
  filename : JsValue
  render : JsValue → RenderResult

/-- The `NoSelectionFound` component: a plain function component rendering
the fragment `No selection found!`; it carries no `variables` or `filename`
property, and invoking it never throws. -/
def NoSelectionFound : Renderable :=
  { «variables» := none
    filename := JsValue.undef
    render := fun _ => RenderResult.ok "No selection found!" }

/-- `DesignerState`.  The TypeScript interface declares `themeId` and
`selectionId` as strings, but the reducer assigns the untyped action payload
to them unchecked, so both are modelled in the full value domain; the
`variables` mapping is an object. -/
structure DesignerState where
  themeId : JsValue
  selectionId : JsValue
  «variables» : JsFields
deriving DecidableEq, Repr

/-- Numeric values of the `ActionTypes` TypeScript enum. -/
def ActionTypes.UPDATE_SELECTION_ID : Nat := 0

/-- Numeric value of `ActionTypes.UPDATE_THEME_ID`. -/
def ActionTypes.UPDATE_THEME_ID : Nat := 1

/-- Numeric value of `ActionTypes.UPDATE_VARIABLE`. -/
def ActionTypes.UPDATE_VARIABLE : Nat := 2

/-- A dispatched action: the `type` discriminant (any number — dispatch
sites are untyped), and the destructured `field` and `value` payload. -/
structure Action where
  type : Nat
  field : String
  value : JsValue
deriving DecidableEq, Repr

/-- What one reducer call produces: the next state together with the
`(field, value)` pair it pushes into the URL query via `updateQuery` (the
reducer's intentional side channel). -/
structure ReducerOutput where
  state : DesignerState
  queryUpdate : String × JsValue
deriving DecidableEq, Repr

/-- `assetDesignerReducer(state, action)`: switches on `action.type`; the
three known kinds overwrite one field of a shallow-copied state and push the
corresponding query update; any other kind throws
`No matching reducer found!`. -/
def assetDesignerReducer (state : DesignerState) (action : Action) :
    Except String ReducerOutput :=
  if action.type = ActionTypes.UPDATE_SELECTION_ID then
    Except.ok { state := { state with selectionId := action.value }
                queryUpdate := ("selectionId", action.value) }
  else if action.type = ActionTypes.UPDATE_THEME_ID then
    Except.ok { state := { state with themeId := action.value }
                queryUpdate := ("themeId", action.value) }
  else if action.type = ActionTypes.UPDATE_VARIABLE then
    let newVariables := setPathF (toPath action.field) action.value state.«variables»
    Except.ok { state := { state with «variables» := newVariables }
                queryUpdate :=
                  ("variables", JsValue.str (jsonStringifyV (JsValue.obj newVariables))) }
  else
    Except.error "No matching reducer found!"

/-- `updateQuery(field, value)`: parses the current search string, merges
the one binding over it with an object spread, and pushes the result as the
new search string.  Modelled at the parsed-mapping level (the query-string
library's parse/stringify round trip), on the current search given as an
argument in place of the global `location.search`. -/
def updateQuery (field : String) (value : JsValue) (search : JsFields) : JsFields :=
  search.set field value

/-- Property lookup in a module registry (`templates` or `components`),
keyed by exported name. -/
def regLookup (reg : List (String × Renderable)) (k : String) : Option Renderable :=
  match reg with
  | [] => none
  | (k', r) :: rest => if k' = k then some r else regLookup rest k

/-- `getSelection(selectionId)`: `templates[selectionId] ||
components[selectionId]` — template registry first, then component
registry, `undefined` when neither holds the id (registry entries are
module-exported components, hence never falsy). -/
def getSelection (tpl cmp : List (String × Renderable)) (selectionId : JsValue) :
    Option Renderable :=
  match regLookup tpl (propKey selectionId) with
  | some r => some r
  | none => regLookup cmp (propKey selectionId)

/-- The render-site resolution `getSelection(selectionId) ||
NoSelectionFound` (line 144): falls back to the placeholder component. -/
def renderSelection (tpl cmp : List (String × Renderable)) (selectionId : JsValue) :
    Renderable :=
  (getSelection tpl cmp selectionId).getD NoSelectionFound

/-- The lazy initializer passed to `React.useReducer`: dereferences
`getSelection(selectionId).variables.map(...)` with no fallback — an unknown
selection id (or a selection without a `variables` list) throws — and seeds
`themeId` with the empty string and each declared variable with its
`validation.default`. -/
def initDesignerState (tpl cmp : List (String × Renderable)) (selectionId : JsValue) :
    Except String DesignerState :=
  match getSelection tpl cmp selectionId with
  | none => Except.error "TypeError: cannot read variables of undefined"
  | some selection =>
    match selection.«variables» with
    | none => Except.error "TypeError: selection.variables.map is not a function"
    | some vs =>
      Except.ok
        { selectionId := selectionId
          themeId := JsValue.str ""
          «variables» := fromPairsF (vs.map fun d => (d.id, jsGet d.validation "default")) }

/-- Strict equality `id === state.themeId` between a known string id and the
state's theme id value. -/
def jsStrictEqStr (v : JsValue) (s : String) : Bool :=
  match v with
  | JsValue.str t => decide (t = s)
  | _ => false

/-- Theme resolution (line 141): `themes.find(({ id }) => id ===
state.themeId) || themes[0]`. -/
def resolveTheme (themes : List Theme) (tid : JsValue) : Option Theme :=
  match themes.find? (fun t => jsStrictEqStr tid t.id) with
  | some t => some t
  | none => themes.head?

/-- The per-variable overlay (lines 145–150): when the selection exposes a
`variables` list, each descriptor is paired with its current value
`state.variables[variable.id]`; otherwise the empty list. -/
def overlayVariables (sel : Renderable) (st : DesignerState) :
    List (VariableDescriptor × JsValue) :=
  match sel.«variables» with
  | some vs => vs.map fun d => (d, (st.«variables».lookup d.id).getD JsValue.undef)
  | none => []

/-- What the page's one render pass exhibits: the state, the resolved theme,
the resolved selection and the overlaid variable list. -/
structure PageView where
  state : DesignerState
  theme : Option Theme
  selection : Renderable
  «variables» : List (VariableDescriptor × JsValue)

/-- Outcome of rendering `AssetDesignerPage` once: returned `null`,
produced a view, or let an exception escape. -/
inductive PageResult where
  | nothing
  | view (v : PageView)
  | thrown (msg : String)

/-- `AssetDesignerPage`: returns `null` when the `themes` prop is missing;
otherwise seeds the state through the `useReducer` initializer (which may
throw) and renders with the resolved theme, the fallback-protected
selection, and the variable overlay. -/
def assetDesignerPage (tpl cmp : List (String × Renderable))
    (themes : Option (List Theme)) (initialSelectionId : JsValue) : PageResult :=
  match themes with
  | none => PageResult.nothing
  | some ts =>
    match initDesignerState tpl cmp initialSelectionId with
    | Except.error e => PageResult.thrown e
    | Except.ok st =>
      let selection := renderSelection tpl cmp st.selectionId
      PageResult.view
        { state := st
          theme := resolveTheme ts st.themeId
          selection := selection
          «variables» := overlayVariables selection st }

/-- Number of top-level `DesignerState` fields on which two states differ. -/
def changedFieldCount (s t : DesignerState) : Nat :=
  (if s.themeId = t.themeId then 0 else 1) +
    (if s.selectionId = t.selectionId then 0 else 1) +
    (if s.«variables» = t.«variables» then 0 else 1)

/-- Sample descriptor: id `color` with `validation.default` equal to
`"blue"`. -/
def colorDescriptor : VariableDescriptor :=
  { id := "color"
    validation := JsValue.obj (JsFields.cons "default" (JsValue.str "blue") JsFields.nil) }

/-- Sample template exposing the `color` variable. -/
def talkTemplate : Renderable :=
  { «variables» := some [colorDescriptor]
    filename := JsValue.str "talk"
    render := fun _ => RenderResult.ok "talk" }

/-- Sample template registry holding only `talk`. -/
def sampleTemplates : List (String × Renderable) := [("talk", talkTemplate)]

/-- Sample component registry, empty. -/
def sampleComponents : List (String × Renderable) := []

/-- Sample theme with a non-empty id. -/
def themeA : Theme := { id := "a", colorsBackground := "#fff" }

/-- Sample theme whose id is the empty string. -/
def themeEmptyId : Theme := { id := "", colorsBackground := "#000" }

/-- Sample designer state as seeded on first load of the `talk` template. -/
def sampleState : DesignerState :=
  { themeId := JsValue.str ""
    selectionId := JsValue.str "talk"
    «variables» := JsFields.nil }

/-- The state the initializer produces for the sample registries and the
initial selection id `talk`. -/
def sampleSeededState : DesignerState :=
  { selectionId := JsValue.str "talk"
    themeId := JsValue.str ""
    «variables» := JsFields.cons "color" (JsValue.str "blue") JsFields.nil }

/-- Induction principle for object field lists that descends only along the
`rest` component (the mutual recursor's motive on `JsValue` is not needed
for the key/value lemmas below). -/
@[induction_eliminator]
theorem JsFields.inductionOn {P : JsFields → Prop} (nil : P JsFields.nil)
    (cons : ∀ k v rest, P rest → P (JsFields.cons k v rest)) :
    ∀ fs, P fs
  | JsFields.nil => nil
  | JsFields.cons k v rest => cons k v rest (JsFields.inductionOn nil cons rest)

/-- Reading back the key just written finds the written value. -/
theorem JsFields.lookup_set_self (k : String) (v : JsValue) (fs : JsFields) :
    (fs.set k v).lookup k = some v := by
  induction fs with
  | nil => simp [JsFields.set, JsFields.lookup]
  | cons k' v' rest ih =>
    by_cases h : k' = k
    · simp [JsFields.set, JsFields.lookup, h]
    · simp [JsFields.set, JsFields.lookup, h, ih]

/-- Writing one key leaves the lookup of every other key unchanged. -/
theorem JsFields.lookup_set_ne (k k' : String) (v : JsValue) (fs : JsFields)
    (h : k' ≠ k) : (fs.set k' v).lookup k = fs.lookup k := by
  induction fs with
  | nil => simp [JsFields.set, JsFields.lookup, h]
  | cons a b rest ih =>
    by_cases ha : a = k'
    · subst ha
      simp [JsFields.set, JsFields.lookup, h]
    · simp [JsFields.set, JsFields.lookup, ha, ih]

/-- Every path reads as `undefined` in the empty object. -/
theorem getPathF_nil (p : List String) : getPathF p JsFields.nil = JsValue.undef := by
  cases p with
  | nil => rfl
  | cons k rest =>
    cases rest with
    | nil => rfl
    | cons k2 r => rfl

/-- A path read only depends on the lookup of its head key. -/
theorem getPathF_congr (k : String) (q : List String) (fs1 fs2 : JsFields)
    (h : fs1.lookup k = fs2.lookup k) :
    getPathF (k :: q) fs1 = getPathF (k :: q) fs2 := by
  cases q with
  | nil => simp [getPathF, h]
  | cons k2 rest => simp [getPathF, h]

/-- Reading back the path just written finds the written value. -/
theorem getPathF_setPathF_self (p : List String) (v : JsValue) (fs : JsFields)
    (hp : p ≠ []) : getPathF p (setPathF p v fs) = v := by
  induction p generalizing fs with
  | nil => exact absurd rfl hp
  | cons k rest ih =>
    cases rest with
    | nil => simp [setPathF, getPathF, JsFields.lookup_set_self]
    | cons k2 r =>
      simp only [setPathF, getPathF, JsFields.lookup_set_self]
      exact ih _ (by simp)

/-- A nested write at one path leaves the read of every path that diverges
from it unchanged. -/
theorem getPathF_setPathF_disjoint (p q : List String) (v : JsValue) (fs : JsFields)
    (h : pathDisjoint p q = true) :
    getPathF q (setPathF p v fs) = getPathF q fs := by
  induction p generalizing q fs with
  | nil => simp [pathDisjoint] at h
  | cons a p' ih =>
    cases q with
    | nil => simp [pathDisjoint] at h
    | cons b q' =>
      by_cases hab : a = b
      · subst hab
        have hd : pathDisjoint p' q' = true := by
          simpa [pathDisjoint] using h
        cases p' with
        | nil => simp [pathDisjoint] at hd
        | cons a2 p'' =>
          cases q' with
          | nil => simp [pathDisjoint] at hd
          | cons b2 q'' =>
            rcases hfa : fs.lookup a with _ | w
            · simp only [setPathF, getPathF, JsFields.lookup_set_self, hfa,
                childFields]
              rw [ih _ _ hd, getPathF_nil]
            · cases w with
              | obj g =>
                simp only [setPathF, getPathF, JsFields.lookup_set_self, hfa,
                  childFields]
                exact ih _ _ hd
              | undef =>
                simp only [setPathF, getPathF, JsFields.lookup_set_self, hfa,
                  childFields]
                rw [ih _ _ hd, getPathF_nil]
              | null =>
                simp only [setPathF, getPathF, JsFields.lookup_set_self, hfa,
                  childFields]
                rw [ih _ _ hd, getPathF_nil]
              | bool b0 =>
                simp only [setPathF, getPathF, JsFields.lookup_set_self, hfa,
                  childFields]
                rw [ih _ _ hd, getPathF_nil]
              | num n0 =>
                simp only [setPathF, getPathF, JsFields.lookup_set_self, hfa,
                  childFields]
                rw [ih _ _ hd, getPathF_nil]
              | str s0 =>
                simp only [setPathF, getPathF, JsFields.lookup_set_self, hfa,
                  childFields]
                rw [ih _ _ hd, getPathF_nil]
      · cases p' with
        | nil =>
          exact getPathF_congr b q' _ _ (JsFields.lookup_set_ne b a v fs hab)
        | cons a2 p'' =>
          exact getPathF_congr b q' _ _
            (JsFields.lookup_set_ne b a
              (JsValue.obj (setPathF (a2 :: p'') v (childFields fs a))) fs hab)

/-- Splitting a character list at dots never yields the empty list. -/
theorem splitDots_ne_nil (cs : List Char) : splitDots cs ≠ [] := by
  cases cs with
  | nil => simp [splitDots]
  | cons c rest =>
    simp only [splitDots]
    by_cases h : c = '.'
    · simp [h]
    · simp only [h, if_false]
      cases hr : splitDots rest with
      | nil => simp
      | cons s t => simp

/-- A dotted field name always yields a non-empty path. -/
theorem toPath_ne_nil (field : String) : toPath field ≠ [] :=
  splitDots_ne_nil field.data

/-- Folding writes for keys other than `k` over an accumulator leaves the
lookup of `k` unchanged. -/
theorem lookup_foldl_set_of_not_mem (pairs : List (String × JsValue))
    (acc : JsFields) (k : String) (h : k ∉ pairs.map Prod.fst) :
    (pairs.foldl (fun a p => a.set p.1 p.2) acc).lookup k = acc.lookup k := by
  induction pairs generalizing acc with
  | nil => rfl
  | cons p ps ih =>
    simp only [List.map_cons, List.mem_cons, not_or] at h
    simp only [List.foldl_cons]
    rw [ih _ h.2, JsFields.lookup_set_ne _ _ _ _ (Ne.symm h.1)]

/-- With pairwise distinct keys, `fromPairs` maps each listed key to its
listed value (generalized over the fold's accumulator). -/
theorem lookup_foldl_set_of_mem (pairs : List (String × JsValue))
    (acc : JsFields) (k : String) (v : JsValue) (hmem : (k, v) ∈ pairs)
    (hnd : (pairs.map Prod.fst).Nodup) :
    (pairs.foldl (fun a p => a.set p.1 p.2) acc).lookup k = some v := by
  induction pairs generalizing acc with
  | nil => cases hmem
  | cons p ps ih =>
    obtain ⟨pk, pv⟩ := p
    simp only [List.map_cons, List.nodup_cons] at hnd
    simp only [List.foldl_cons]
    rcases List.mem_cons.mp hmem with heq | hmem'
    · injection heq with hk hv
      subst hk
      subst hv
      rw [lookup_foldl_set_of_not_mem _ _ _ hnd.1, JsFields.lookup_set_self]
    · exact ih _ hmem' hnd.2

/-- With pairwise distinct keys, `fromPairs` maps each listed key to its
listed value. -/
theorem lookup_fromPairsF (pairs : List (String × JsValue)) (k : String)
    (v : JsValue) (hmem : (k, v) ∈ pairs)
    (hnd : (pairs.map Prod.fst).Nodup) :
    (fromPairsF pairs).lookup k = some v :=
  lookup_foldl_set_of_mem pairs JsFields.nil k v hmem hnd

/-- C1 counterexample: dispatching UPDATE_THEME_ID with a value equal to the
current themeId returns a state in which zero — not exactly one — top-level
fields differ from the input state. -/
theorem assetDesignerReducer_frame_counterexample :
    Except.map (fun o => changedFieldCount sampleState o.state)
        (assetDesignerReducer sampleState
          { type := 1, field := "", value := JsValue.str "" }) =
      Except.ok 0 ∧ (0 : Nat) ≠ 1 :=
  ⟨rfl, by decide⟩

/-- C1 (amended): every valid action overwrites exactly its target — so at
most one top-level field (for UPDATE_VARIABLE, one nested variable path)
differs from the input: UPDATE_SELECTION_ID and UPDATE_THEME_ID replace only
their own field, and UPDATE_VARIABLE writes only the dotted path of the
action, reads back the written value there, and leaves every path diverging
from it (and both other fields) byte-identical to the input. -/
theorem assetDesignerReducer_frame (s : DesignerState) (a : Action)
    (q : List String) (hq : pathDisjoint (toPath a.field) q = true) :
    (a.type = ActionTypes.UPDATE_SELECTION_ID →
      assetDesignerReducer s a =
        Except.ok { state := { s with selectionId := a.value }
                    queryUpdate := ("selectionId", a.value) }) ∧
    (a.type = ActionTypes.UPDATE_THEME_ID →
      assetDesignerReducer s a =
        Except.ok { state := { s with themeId := a.value }
                    queryUpdate := ("themeId", a.value) }) ∧
    (a.type = ActionTypes.UPDATE_VARIABLE →
      assetDesignerReducer s a =
        Except.ok
          { state :=
              { s with «variables» := setPathF (toPath a.field) a.value s.«variables» }
            queryUpdate :=
              ("variables", JsValue.str (jsonStringifyV
                (JsValue.obj (setPathF (toPath a.field) a.value s.«variables»)))) } ∧
      getPathF (toPath a.field) (setPathF (toPath a.field) a.value s.«variables») =
        a.value ∧
      getPathF q (setPathF (toPath a.field) a.value s.«variables») =
        getPathF q s.«variables») := by
  refine ⟨fun h0 => ?_, fun h1 => ?_, fun h2 => ?_⟩
  · simp [assetDesignerReducer, h0, ActionTypes.UPDATE_SELECTION_ID]
  · simp [assetDesignerReducer, h1, ActionTypes.UPDATE_SELECTION_ID,
      ActionTypes.UPDATE_THEME_ID]
  · refine ⟨?_, getPathF_setPathF_self _ _ _ (toPath_ne_nil a.field),
      getPathF_setPathF_disjoint _ _ _ _ hq⟩
    simp [assetDesignerReducer, h2, ActionTypes.UPDATE_SELECTION_ID,
      ActionTypes.UPDATE_THEME_ID, ActionTypes.UPDATE_VARIABLE]

/-- Witness for the C1 amended theorem at a concrete variable update. -/
theorem assetDesignerReducer_frame_witness :
    assetDesignerReducer sampleState
        { type := 2, field := "a.b", value := JsValue.num 5 } =
      Except.ok
        { state :=
            { sampleState with
                «variables» := setPathF (toPath "a.b") (JsValue.num 5)
                  sampleState.«variables» }
          queryUpdate :=
            ("variables", JsValue.str (jsonStringifyV
              (JsValue.obj (setPathF (toPath "a.b") (JsValue.num 5)
                sampleState.«variables»)))) } ∧
    getPathF (toPath "a.b")
        (setPathF (toPath "a.b") (JsValue.num 5) sampleState.«variables») =
      JsValue.num 5 ∧
    getPathF ["other"]
        (setPathF (toPath "a.b") (JsValue.num 5) sampleState.«variables») =
      getPathF ["other"] sampleState.«variables» :=
  (assetDesignerReducer_frame sampleState
    { type := 2, field := "a.b", value := JsValue.num 5 } ["other"]
    (by decide)).2.2 rfl

/-- C2: getSelection looks the id up in the template registry first and the
component registry second; for an id present in neither, the render-site
resolution yields the NoSelectionFound placeholder, and rendering the
placeholder never throws. -/
theorem getSelection_spec (tpl cmp : List (String × Renderable)) (sid : JsValue)
    (props : JsValue) (r : Renderable) :
    (regLookup tpl (propKey sid) = some r → getSelection tpl cmp sid = some r) ∧
    (regLookup tpl (propKey sid) = none →
      getSelection tpl cmp sid = regLookup cmp (propKey sid)) ∧
    (regLookup tpl (propKey sid) = none → regLookup cmp (propKey sid) = none →
      renderSelection tpl cmp sid = NoSelectionFound) ∧
    NoSelectionFound.render props = RenderResult.ok "No selection found!" := by
  refine ⟨fun h => ?_, fun h => ?_, fun h1 h2 => ?_, rfl⟩
  · simp [getSelection, h]
  · simp [getSelection, h]
  · simp [renderSelection, getSelection, h1, h2]

/-- Witness for C2 at an id held by neither sample registry. -/
theorem getSelection_spec_witness :
    renderSelection sampleTemplates sampleComponents (JsValue.str "nope") =
      NoSelectionFound ∧
    NoSelectionFound.render (JsValue.obj JsFields.nil) =
      RenderResult.ok "No selection found!" :=
  ⟨(getSelection_spec sampleTemplates sampleComponents (JsValue.str "nope")
      (JsValue.obj JsFields.nil) NoSelectionFound).2.2.1 rfl rfl,
   (getSelection_spec sampleTemplates sampleComponents (JsValue.str "nope")
      (JsValue.obj JsFields.nil) NoSelectionFound).2.2.2⟩

/-- C3 counterexample: the state seeded on page load ignores the URL themeId
and variables parameters — the initializer receives only selectionId, seeds
themeId as the empty string unconditionally, and takes the variables from
the selection's declared defaults, so no URL themeId (such as "dark") can
reach the initial state. -/
theorem initDesignerState_counterexample :
    initDesignerState sampleTemplates sampleComponents (JsValue.str "talk") =
      Except.ok sampleSeededState ∧
    sampleSeededState.themeId = JsValue.str "" ∧
    sampleSeededState.themeId ≠ JsValue.str "dark" :=
  ⟨rfl, rfl, by decide⟩

/-- C3 (amended): on page load only the selectionId query parameter
determines the initial designer state: the seeded state carries the given
selectionId, an unconditionally empty themeId, and variables drawn from the
selection's declared defaults; the themeId and variables parameters are
written on state changes but never read on load. -/
theorem initDesignerState_amended (tpl cmp : List (String × Renderable))
    (sid : JsValue) (st : DesignerState)
    (h : initDesignerState tpl cmp sid = Except.ok st) :
    st.selectionId = sid ∧ st.themeId = JsValue.str "" ∧
    ∃ sel vs, getSelection tpl cmp sid = some sel ∧ sel.«variables» = some vs ∧
      st.«variables» =
        fromPairsF (vs.map fun d => (d.id, jsGet d.validation "default")) := by
  unfold initDesignerState at h
  rcases hsel : getSelection tpl cmp sid with _ | sel
  · rw [hsel] at h; exact Except.noConfusion h
  · simp only [hsel] at h
    rcases hvs : sel.«variables» with _ | vs
    · simp only [hvs] at h; exact Except.noConfusion h
    · simp only [hvs] at h
      injection h with h'
      subst h'
      exact ⟨rfl, rfl, sel, vs, rfl, hvs, rfl⟩

/-- Witness for the C3 amended theorem on the sample registries. -/
theorem initDesignerState_amended_witness :
    sampleSeededState.selectionId = JsValue.str "talk" ∧
    sampleSeededState.themeId = JsValue.str "" :=
  ⟨(initDesignerState_amended sampleTemplates sampleComponents
      (JsValue.str "talk") sampleSeededState rfl).1,
   (initDesignerState_amended sampleTemplates sampleComponents
      (JsValue.str "talk") sampleSeededState rfl).2.1⟩

/-- C4: UPDATE_VARIABLE writes the given value at the given dotted path of
the variables mapping (the written path reads back the value); in
particular field "a.b" with value 5 on empty variables yields the nested
object a maps-to (b maps-to 5). -/
theorem updateVariable_setsPath (s : DesignerState) (a : Action)
    (hk : a.type = ActionTypes.UPDATE_VARIABLE) :
    assetDesignerReducer s a =
      Except.ok
        { state :=
            { s with «variables» := setPathF (toPath a.field) a.value s.«variables» }
          queryUpdate :=
            ("variables", JsValue.str (jsonStringifyV
              (JsValue.obj (setPathF (toPath a.field) a.value s.«variables»)))) } ∧
    getPathF (toPath a.field) (setPathF (toPath a.field) a.value s.«variables») =
      a.value ∧
    setPathF (toPath "a.b") (JsValue.num 5) JsFields.nil =
      JsFields.cons "a"
        (JsValue.obj (JsFields.cons "b" (JsValue.num 5) JsFields.nil))
        JsFields.nil := by
  refine ⟨?_, getPathF_setPathF_self _ _ _ (toPath_ne_nil a.field), by decide⟩
  simp [assetDesignerReducer, hk, ActionTypes.UPDATE_SELECTION_ID,
    ActionTypes.UPDATE_THEME_ID, ActionTypes.UPDATE_VARIABLE]

/-- Witness for C4 at the concrete "a.b" update. -/
theorem updateVariable_setsPath_witness :
    getPathF (toPath "a.b")
        (setPathF (toPath "a.b") (JsValue.num 5) sampleState.«variables») =
      JsValue.num 5 :=
  (updateVariable_setsPath sampleState
    { type := 2, field := "a.b", value := JsValue.num 5 } rfl).2.1

/-- C5: initial seeding maps every declared variable to its
validation.default; in particular a template declaring default "blue" for
id "color" seeds variables.color = "blue". -/
theorem initDesignerState_seedsDefaults (tpl cmp : List (String × Renderable))
    (sid : JsValue) (st : DesignerState) (sel : Renderable)
    (vs : List VariableDescriptor) (d : VariableDescriptor)
    (hsel : getSelection tpl cmp sid = some sel)
    (hvs : sel.«variables» = some vs)
    (hst : initDesignerState tpl cmp sid = Except.ok st)
    (hd : d ∈ vs)
    (hnd : (vs.map VariableDescriptor.id).Nodup) :
    st.«variables».lookup d.id = some (jsGet d.validation "default") ∧
    Except.map (fun s0 => s0.«variables».lookup "color")
        (initDesignerState sampleTemplates sampleComponents (JsValue.str "talk")) =
      Except.ok (some (JsValue.str "blue")) := by
  refine ⟨?_, rfl⟩
  unfold initDesignerState at hst
  rw [hsel] at hst
  simp only [hvs] at hst
  injection hst with h'
  subst h'
  refine lookup_fromPairsF _ _ _ (List.mem_map_of_mem _ hd) ?_
  simpa [List.map_map, Function.comp_def] using hnd

/-- Witness for C5 on the sample template declaring color default "blue". -/
theorem initDesignerState_seedsDefaults_witness :
    sampleSeededState.«variables».lookup "color" = some (JsValue.str "blue") :=
  (initDesignerState_seedsDefaults sampleTemplates sampleComponents
    (JsValue.str "talk") sampleSeededState talkTemplate [colorDescriptor]
    colorDescriptor rfl rfl rfl (by decide) (by decide)).1

/-- C6 counterexample: with themes list [a-theme, empty-id-theme] and empty
themeId, the resolved theme is the empty-id theme, a strict-equality match,
and not the first available theme as the claim requires. -/
theorem resolveTheme_counterexample :
    resolveTheme [themeA, themeEmptyId] (JsValue.str "") = some themeEmptyId ∧
    [themeA, themeEmptyId].head? = some themeA ∧ themeEmptyId ≠ themeA := by
  refine ⟨rfl, rfl, by decide⟩

/-- C6 (amended): when some theme's id strictly equals state.themeId the
resolved theme is the first such match; when themeId is empty and no theme
matches it (no theme has the empty id), resolution falls back to the first
available theme. -/
theorem resolveTheme_spec (themes : List Theme) (tid : JsValue) (t : Theme)
    (hne : themes ≠ []) :
    (themes.find? (fun u => jsStrictEqStr tid u.id) = some t →
      resolveTheme themes tid = some t ∧ jsStrictEqStr tid t.id = true) ∧
    (tid = JsValue.str "" →
      themes.find? (fun u => jsStrictEqStr tid u.id) = none →
      ∃ t0, themes.head? = some t0 ∧ resolveTheme themes tid = some t0) := by
  constructor
  · intro h
    exact ⟨by simp [resolveTheme, h], by simpa using List.find?_some h⟩
  · intro _ h
    cases themes with
    | nil => exact absurd rfl hne
    | cons t0 ts => exact ⟨t0, rfl, by simp [resolveTheme, h]⟩

/-- Witness for the C6 amended theorem: a matching id resolves to the
matching theme. -/
theorem resolveTheme_spec_witness :
    resolveTheme [themeA, themeEmptyId] (JsValue.str "a") = some themeA ∧
    jsStrictEqStr (JsValue.str "a") themeA.id = true :=
  (resolveTheme_spec [themeA, themeEmptyId] (JsValue.str "a") themeA
    (by decide)).1 rfl

/-- C7: dispatching an action whose type is none of UPDATE_SELECTION_ID,
UPDATE_THEME_ID, UPDATE_VARIABLE throws, for every input state. -/
theorem assetDesignerReducer_unknownType (s : DesignerState) (a : Action)
    (h0 : a.type ≠ ActionTypes.UPDATE_SELECTION_ID)
    (h1 : a.type ≠ ActionTypes.UPDATE_THEME_ID)
    (h2 : a.type ≠ ActionTypes.UPDATE_VARIABLE) :
    assetDesignerReducer s a = Except.error "No matching reducer found!" := by
  simp [assetDesignerReducer, h0, h1, h2]

/-- Witness for C7 at the unknown action type 3. -/
theorem assetDesignerReducer_unknownType_witness :
    assetDesignerReducer sampleState { type := 3, field := "", value := JsValue.null } =
      Except.error "No matching reducer found!" :=
  assetDesignerReducer_unknownType sampleState
    { type := 3, field := "", value := JsValue.null }
    (by decide) (by decide) (by decide)

/-- C8: updateQuery sets the given field to the given value, preserves every
other parameter of the existing query unchanged, and a variable update
pushes under the variables key the JSON serialization of the entire new
variables mapping. -/
theorem updateQuery_spec (field : String) (value : JsValue) (search : JsFields)
    (k : String) (s : DesignerState) (a : Action) (hk : k ≠ field) :
    (updateQuery field value search).lookup field = some value ∧
    (updateQuery field value search).lookup k = search.lookup k ∧
    (a.type = ActionTypes.UPDATE_VARIABLE →
      Except.map ReducerOutput.queryUpdate (assetDesignerReducer s a) =
        Except.ok ("variables", JsValue.str (jsonStringifyV
          (JsValue.obj (setPathF (toPath a.field) a.value s.«variables»))))) := by
  refine ⟨JsFields.lookup_set_self field value search,
    JsFields.lookup_set_ne k field value search (Ne.symm hk), fun h => ?_⟩
  simp [assetDesignerReducer, h, Except.map, ActionTypes.UPDATE_SELECTION_ID,
    ActionTypes.UPDATE_THEME_ID, ActionTypes.UPDATE_VARIABLE]

/-- Witness for C8 at a concrete merge and a concrete variable update. -/
theorem updateQuery_spec_witness :
    (updateQuery "selectionId" (JsValue.str "x")
        (JsFields.cons "themeId" (JsValue.str "d") JsFields.nil)).lookup
        "selectionId" = some (JsValue.str "x") ∧
    (updateQuery "selectionId" (JsValue.str "x")
        (JsFields.cons "themeId" (JsValue.str "d") JsFields.nil)).lookup
        "themeId" =
      (JsFields.cons "themeId" (JsValue.str "d") JsFields.nil).lookup "themeId" ∧
    Except.map ReducerOutput.queryUpdate
        (assetDesignerReducer sampleState
          { type := 2, field := "color", value := JsValue.str "red" }) =
      Except.ok ("variables", JsValue.str (jsonStringifyV
        (JsValue.obj (setPathF (toPath "color") (JsValue.str "red")
          sampleState.«variables»)))) :=
  ⟨(updateQuery_spec "selectionId" (JsValue.str "x")
      (JsFields.cons "themeId" (JsValue.str "d") JsFields.nil) "themeId"
      sampleState { type := 2, field := "color", value := JsValue.str "red" }
      (by decide)).1,
   (updateQuery_spec "selectionId" (JsValue.str "x")
      (JsFields.cons "themeId" (JsValue.str "d") JsFields.nil) "themeId"
      sampleState { type := 2, field := "color", value := JsValue.str "red" }
      (by decide)).2.1,
   (updateQuery_spec "selectionId" (JsValue.str "x")
      (JsFields.cons "themeId" (JsValue.str "d") JsFields.nil) "themeId"
      sampleState { type := 2, field := "color", value := JsValue.str "red" }
      (by decide)).2.2 rfl⟩

/-- C9: when the themes data is missing the page renders nothing — a silent
no-op, not an error. -/
theorem assetDesignerPage_noThemes (tpl cmp : List (String × Renderable))
    (sid : JsValue) :
    assetDesignerPage tpl cmp none sid = PageResult.nothing := rfl

/-- C10: for an initial selectionId present in neither registry the
initializer dereferences the undefined selection and throws, a page render
with themes present propagates that exception, and the placeholder fallback
exists only on the render path. -/
theorem initDesignerState_throwsOnUnknownSelection
    (tpl cmp : List (String × Renderable)) (sid : JsValue) (ts : List Theme)
    (h1 : regLookup tpl (propKey sid) = none)
    (h2 : regLookup cmp (propKey sid) = none) :
    initDesignerState tpl cmp sid =
      Except.error "TypeError: cannot read variables of undefined" ∧
    assetDesignerPage tpl cmp (some ts) sid =
      PageResult.thrown "TypeError: cannot read variables of undefined" ∧
    renderSelection tpl cmp sid = NoSelectionFound := by
  have hsel : getSelection tpl cmp sid = none := by simp [getSelection, h1, h2]
  refine ⟨?_, ?_, ?_⟩
  · simp [initDesignerState, hsel]
  · simp [assetDesignerPage, initDesignerState, hsel]
  · simp [renderSelection, hsel]

/-- Witness for C10 at an id held by neither sample registry. -/
theorem initDesignerState_throwsOnUnknownSelection_witness :
    initDesignerState sampleTemplates sampleComponents (JsValue.str "nope") =
      Except.error "TypeError: cannot read variables of undefined" ∧
    assetDesignerPage sampleTemplates sampleComponents (some [themeA])
        (JsValue.str "nope") =
      PageResult.thrown "TypeError: cannot read variables of undefined" ∧
    renderSelection sampleTemplates sampleComponents (JsValue.str "nope") =
      NoSelectionFound :=
  initDesignerState_throwsOnUnknownSelection sampleTemplates sampleComponents
    (JsValue.str "nope") [themeA] rfl rfl

end AssetDesigner
